import Mathlib

/-!
Verification development for the whispeer command-learning session state
machine (custom_components/whispeer/api.py).

The embedding translates the Python source into executable Lean functions:

* `LearnSession` / `LearnSession.update_status` embed the `LearnSession`
  class and its `update_status` method (api.py lines 25-47).  Python
  truthiness of the optional `command_data` / `error_message` arguments is
  captured by `truthy` (a `None` or empty string argument leaves the stored
  field unchanged).
* `checkLearnedCommand` embeds the body of
  `WhispeerApiClient.async_check_learned_command` (api.py lines 707-807)
  for a session that was found in the registry.  Time is an integer
  parameter `now`; the result of `device.check_data()` during the
  `learning` branch is an explicit `CaptureOutcome` argument (returned
  bytes, a recognized storage-full exception, or any other exception).
  The boolean `spawned` records whether `asyncio.create_task` was invoked.
* `prepareToLearn` / `prepareToLearnBle` embed
  `async_prepare_to_learn` and `async_prepare_to_learn_ble`
  (api.py lines 608-705); the `connectorCalls` count records how often the
  external device connector `whispeer_broadlink.connect_to_device` was
  invoked on the executed path.
* `performBody` / `performLearningE` embed the background watcher
  `_perform_learning` (api.py lines 809-837).  The environment `env`
  models what happens at each `await asyncio.sleep` suspension point:
  concurrent poll handlers may mutate the session (`Except.ok`), or an
  exception may be raised inside the watcher (`Except.error`), which the
  surrounding `try/except` converts into an `error` transition.
* `SysState`, `Step` and `Reachable` give the interleaving semantics:
  a session together with its watcher phase, mutated by poll calls and by
  the watcher one suspension point at a time.
* `prepareViewValidate` / `checkViewValidate` embed the required-field
  validation of `WhispeerPrepareToLearnView.post` and
  `WhispeerCheckLearnedCommandView.post` (api.py lines 1398-1412 and
  1476-1490).
-/

/-- Python truthiness of an optional string: `None` and `""` are falsy. -/
def truthy : Option String → Bool
  | none => false
  | some s => decide (¬ s = "")

/-- ASCII embedding of Python `str.lower()`, written so that it reduces
by kernel computation. -/
def strLower (s : String) : String := String.mk (s.data.map Char.toLower)

/-- ASCII embedding of Python `str.upper()`, written so that it reduces
by kernel computation. -/
def strUpper (s : String) : String := String.mk (s.data.map Char.toUpper)

/-- One lowercase hex digit, as produced by Python `format(n, "02x")`. -/
def hexDigit (n : Nat) : Char :=
  if n < 10 then Char.ofNat (48 + n) else Char.ofNat (87 + n)

/-- Character list of `bytes.hex()`: two lowercase hex digits per byte. -/
def bytesToHexList : List (Fin 256) → List Char
  | [] => []
  | b :: bs => hexDigit (b.val / 16) :: hexDigit (b.val % 16) :: bytesToHexList bs

/-- Embedding of Python `bytes.hex()`. -/
def bytesToHex (bs : List (Fin 256)) : String :=
  String.mk (bytesToHexList bs)

/-- The simulated BLE payload of `_perform_learning`: 24 pseudo-random bytes
rendered as 48 lowercase hex characters.  The random draw
`random.randint(0, 255)` for each of the 24 positions is the argument. -/
def bleCommandData (rand : Fin 24 → Fin 256) : String :=
  bytesToHex (List.ofFn fun i => rand i)

/-- Membership in the lowercase hexadecimal alphabet. -/
def isHexChar (c : Char) : Bool :=
  ("0123456789abcdef".data).contains c

/-- Every character of the string is a lowercase hexadecimal digit. -/
def isHexString (s : String) : Bool :=
  s.data.all isHexChar

/-- Embedding of the `LearnSession` class (api.py lines 25-38).  The device
handle returned by the vendor SDK is abstracted to `Option Unit` (absent
until the connector succeeds). -/
structure LearnSession where
  session_id : String
  device_type : String
  device_ip : Option String
  frequency : ℚ
  iface : Option String
  device : Option Unit
  status : String
  command_data : Option String
  error_message : Option String
  created_at : Int
  updated_at : Int
deriving DecidableEq

/-- Embedding of `LearnSession.update_status` (api.py lines 40-47): the
status and `updated_at` are overwritten unconditionally, while
`command_data` and `error_message` are only overwritten by truthy
arguments. -/
def LearnSession.update_status (s : LearnSession) (status : String)
    (command_data : Option String) (error_message : Option String)
    (now : Int) : LearnSession :=
  { s with
    status := status
    updated_at := now
    command_data := if truthy command_data then command_data else s.command_data
    error_message := if truthy error_message then error_message else s.error_message }

/-- Outcome of `session.device.check_data()` during a poll in `learning`
state: no data yet (a falsy return), a captured byte payload, the
recognized storage-full exception, or any other exception. -/
inductive CaptureOutcome
  | noData
  | data (bytes : List (Fin 256))
  | storageFull
  | otherError (msg : String)
deriving DecidableEq

/-- JSON response of `async_check_learned_command`, with `none` marking an
absent key. -/
structure PollResponse where
  status : String
  message : String
  session_id : Option String
  learning_status : Option String
  command_data : Option String
  command_type : Option String
  device_type : Option String
deriving DecidableEq

/-- Result of one poll: the mutated session, the JSON response, and whether
the background watcher task was spawned by this call. -/
structure PollOut where
  session : LearnSession
  resp : PollResponse
  spawned : Bool
deriving DecidableEq

/-- The still-learning response produced both by the `ready` branch and by
the `learning` branch of `async_check_learned_command`. -/
def stillLearningResp (s : LearnSession) : PollResponse :=
  ⟨"success", "Learning in progress - press button on remote control",
    some s.session_id, some "learning", none, none, some s.device_type⟩

/-- Embedding of `async_check_learned_command` (api.py lines 707-807) for a
session found in the registry.  The 30-unit age ceiling is evaluated first;
then the terminal early returns; then the `ready` branch (which spawns the
watcher); then the `learning` branch with its single non-blocking capture
check; any other status falls through to the preparing response. -/
def checkLearnedCommand (s : LearnSession) (device_type : String)
    (now : Int) (cap : CaptureOutcome) : PollOut :=
  if now - s.created_at > 30 then
    ⟨s.update_status "timeout" none none now,
      ⟨"error", "Learning session timed out", some s.session_id,
        some "timeout", none, none, none⟩, false⟩
  else if s.status = "completed" then
    ⟨s, ⟨"success", strUpper s.device_type ++ " command learned successfully",
      some s.session_id, some "completed", s.command_data,
      some s.device_type, none⟩, false⟩
  else if s.status = "error" then
    ⟨s, ⟨"error",
      (if truthy s.error_message then s.error_message.getD "" else "Learning failed"),
      some s.session_id, some "error", none, none, none⟩, false⟩
  else if s.status = "timeout" then
    ⟨s, ⟨"error", "Learning session timed out", some s.session_id,
      some "timeout", none, none, none⟩, false⟩
  else if s.status = "ready" then
    ⟨s.update_status "learning" none none now, stillLearningResp s, true⟩
  else if s.status = "learning" then
    if strLower device_type = "ir" ∨ strLower device_type = "rf" then
      if s.device.isSome then
        match cap with
        | CaptureOutcome.data b =>
          if b = [] then ⟨s, stillLearningResp s, false⟩
          else
            ⟨s.update_status "completed" (some (bytesToHex b)) none now,
              ⟨"success", strUpper s.device_type ++ " command learned successfully",
                some s.session_id, some "completed", some (bytesToHex b),
                some s.device_type, none⟩, false⟩
        | _ => ⟨s, stillLearningResp s, false⟩
      else ⟨s, stillLearningResp s, false⟩
    else ⟨s, stillLearningResp s, false⟩
  else
    ⟨s, ⟨"success", "Preparing device for learning", some s.session_id,
      some s.status, none, none, some s.device_type⟩, false⟩

/-- Result of `whispeer_broadlink.connect_to_device`: a falsy return or a
connected device handle. -/
inductive ConnectOutcome
  | failed
  | connected
deriving DecidableEq

/-- JSON response of the prepare endpoints. -/
structure PrepareResponse where
  status : String
  message : String
  session_id : Option String
  device_type : Option String
  device_ip : Option String
  iface : Option String
  frequency : Option ℚ
deriving DecidableEq

/-- Result of a prepare call: the created session, the JSON response, and
the number of invocations of the external device connector on the executed
path. -/
structure PrepareOut where
  session : LearnSession
  resp : PrepareResponse
  connectorCalls : Nat
deriving DecidableEq

/-- Embedding of `async_prepare_to_learn` (api.py lines 608-672): the
session starts in `preparing`, the Broadlink connector is invoked once, a
falsy handle yields the `error` transition, an unsupported device type
yields the `error` transition, and otherwise the session becomes
`ready`. -/
def prepareToLearn (device_type device_ip : String) (frequency : ℚ)
    (conn : ConnectOutcome) (sid : String) (now : Int) : PrepareOut :=
  let s0 : LearnSession :=
    ⟨sid, device_type, some device_ip, frequency, none, none, "preparing",
      none, none, now, now⟩
  match conn with
  | ConnectOutcome.failed =>
    ⟨s0.update_status "error" none
        (some ("Failed to connect to Broadlink device at " ++ device_ip)) now,
      ⟨"error",
        "Failed to connect to Broadlink device at " ++ device_ip ++
          ". This may be a Docker networking issue - the device might not be accessible from inside the container.",
        some sid, none, none, none, none⟩, 1⟩
  | ConnectOutcome.connected =>
    let s1 : LearnSession := { s0 with device := some () }
    if strLower device_type = "ir" then
      ⟨s1.update_status "ready" none none now,
        ⟨"success", "Device ready for " ++ strUpper device_type ++ " learning",
          some sid, some device_type, some device_ip, none, none⟩, 1⟩
    else if strLower device_type = "rf" then
      ⟨s1.update_status "ready" none none now,
        ⟨"success", "Device ready for " ++ strUpper device_type ++ " learning",
          some sid, some device_type, some device_ip, none, some frequency⟩, 1⟩
    else
      ⟨s1.update_status "error" none
          (some ("Unsupported device type: " ++ device_type)) now,
        ⟨"error", "Unsupported device type: " ++ device_type,
          some sid, none, none, none, none⟩, 1⟩

/-- Embedding of `async_prepare_to_learn_ble` (api.py lines 674-705): the
session is created in `preparing` and immediately marked `ready`; the
external device connector is never invoked on this path. -/
def prepareToLearnBle (iface sid : String) (now : Int) : PrepareOut :=
  let s0 : LearnSession :=
    ⟨sid, "ble", none, 43392 / 100, some iface, none, "preparing",
      none, none, now, now⟩
  ⟨s0.update_status "ready" none none now,
    ⟨"success", "BLE interface ready for learning", some sid, some "ble",
      none, some iface, none⟩, 0⟩

/-- Environment of the background watcher: what happens to the session
across one `await asyncio.sleep` suspension point.  `Except.ok` returns the
(possibly concurrently mutated) session; `Except.error (msg, s, t)` models
an exception with text `msg` raised inside the watcher while the session is
`s` at time `t`. -/
def WatcherEnv : Type :=
  Int → LearnSession → Except (String × LearnSession × Int) LearnSession

/-- Embedding of the timeout loop of `_perform_learning` (api.py lines
824-828): `while elapsed < timeout and session.status == "learning":
await asyncio.sleep(1); elapsed += 1`.  The fuel argument is the remaining
budget `timeout - elapsed` (initially 25); the integer is the current time,
advanced by one per sleep.  On normal exit it returns the session and the
exit time. -/
def watcherLoopE (env : WatcherEnv) :
    Nat → Int → LearnSession → Except (String × LearnSession × Int) (LearnSession × Int)
  | 0, t, s => Except.ok (s, t)
  | Nat.succ n, t, s =>
    if s.status = "learning" then
      match env t s with
      | Except.ok snext => watcherLoopE env n (t + 1) snext
      | Except.error e => Except.error e
    else Except.ok (s, t)

/-- The `try` body of `_perform_learning` (api.py lines 811-833): for a
`ble` session, sleep two units (two suspension points) and then write the
simulated `completed` payload; then run the 25-unit timeout loop. -/
def performBody (env : WatcherEnv) (rand : Fin 24 → Fin 256) (t0 : Int)
    (s0 : LearnSession) : Except (String × LearnSession × Int) (LearnSession × Int) :=
  if strLower s0.device_type = "ble" then
    match env t0 s0 with
    | Except.error e => Except.error e
    | Except.ok sa =>
      match env (t0 + 1) sa with
      | Except.error e => Except.error e
      | Except.ok sb =>
        watcherLoopE env 25 (t0 + 2)
          (sb.update_status "completed" (some (bleCommandData rand)) none (t0 + 2))
  else watcherLoopE env 25 t0 s0

/-- Embedding of `_perform_learning` (api.py lines 809-837): after the try
body, a session still `learning` is marked `timeout`; an exception caught
by the `except` clause is converted into an `error` transition carrying the
exception text. -/
def performLearningE (env : WatcherEnv) (rand : Fin 24 → Fin 256) (t0 : Int)
    (s0 : LearnSession) : LearnSession :=
  match performBody env rand t0 s0 with
  | Except.ok (s2, t2) =>
    if s2.status = "learning" then s2.update_status "timeout" none none t2 else s2
  | Except.error (msg, sf, tf) => sf.update_status "error" none (some msg) tf

/-- Phase of the per-session background watcher task: not spawned, inside
the simulated two-unit BLE sleep, inside the timeout loop with the given
elapsed counter, or finished. -/
inductive WatcherPhase
  | idle
  | bleSleep
  | looping (elapsed : Nat)
  | done
deriving DecidableEq

/-- A session together with the phase of its background watcher task. -/
structure SysState where
  session : LearnSession
  phase : WatcherPhase
deriving DecidableEq

/-- Effect of one poll call on the system state: the session is mutated by
`checkLearnedCommand`, and if this poll spawned the watcher the watcher
enters the BLE sleep for `ble` sessions and the timeout loop otherwise. -/
def pollPhase (σ : SysState) (device_type : String) (t : Int)
    (cap : CaptureOutcome) : SysState :=
  let out := checkLearnedCommand σ.session device_type t cap
  ⟨out.session,
    if out.spawned then
      (if strLower σ.session.device_type = "ble" then WatcherPhase.bleSleep
       else WatcherPhase.looping 0)
    else σ.phase⟩

/-- Interleaving semantics of the session subsystem: a poll call may run at
any time with any capture outcome, and the watcher advances one suspension
point at a time.  `bleWake` is the unconditional simulated completion write
after the BLE sleep; `loopTick` is one iteration of the timeout loop while
the session is still `learning`; `loopExit` is the loop exit together with
the post-loop timeout write; `wFault` is an exception raised at an active
suspension point, converted by the `except` clause into an `error`
transition. -/
inductive Step : SysState → SysState → Prop
  | poll (σ : SysState) (device_type : String) (t : Int) (cap : CaptureOutcome) :
      Step σ (pollPhase σ device_type t cap)
  | bleWake (σ : SysState) (t : Int) (rand : Fin 24 → Fin 256) :
      σ.phase = WatcherPhase.bleSleep →
      Step σ ⟨σ.session.update_status "completed" (some (bleCommandData rand)) none t,
        WatcherPhase.looping 0⟩
  | loopTick (σ : SysState) (e : Nat) :
      σ.phase = WatcherPhase.looping e → e < 25 → σ.session.status = "learning" →
      Step σ ⟨σ.session, WatcherPhase.looping (e + 1)⟩
  | loopExit (σ : SysState) (e : Nat) (t : Int) :
      σ.phase = WatcherPhase.looping e → ¬(e < 25 ∧ σ.session.status = "learning") →
      Step σ ⟨(if σ.session.status = "learning"
          then σ.session.update_status "timeout" none none t else σ.session),
        WatcherPhase.done⟩
  | wFault (σ : SysState) (t : Int) (msg : String) :
      (σ.phase = WatcherPhase.bleSleep ∨ ∃ e, σ.phase = WatcherPhase.looping e ∧ e < 25) →
      σ.session.status = "learning" →
      Step σ ⟨σ.session.update_status "error" none (some msg) t, WatcherPhase.done⟩

/-- States reachable from a freshly prepared session through interleaved
poll calls and watcher steps. -/
inductive Reachable : SysState → Prop
  | initBroadlink (device_type device_ip : String) (frequency : ℚ)
      (conn : ConnectOutcome) (sid : String) (t : Int) :
      Reachable ⟨(prepareToLearn device_type device_ip frequency conn sid t).session,
        WatcherPhase.idle⟩
  | initBle (iface sid : String) (t : Int) :
      Reachable ⟨(prepareToLearnBle iface sid t).session, WatcherPhase.idle⟩
  | step (σ σ2 : SysState) : Reachable σ → Step σ σ2 → Reachable σ2

/-- A terminal status of the state graph. -/
def terminalStatus (st : String) : Prop :=
  st = "completed" ∨ st = "error" ∨ st = "timeout"

/-- The amended transition discipline: a stutter, a forward edge of the
state graph (including the expiry edge from any non-terminal state to
`timeout`), the poll-forced expiry of a `completed` or `error` session to
`timeout`, or the BLE watcher simulated-completion overwrite of a
`timeout`. -/
def StatusStepOK (a b : String) : Prop :=
  a = b
  ∨ (a = "ready" ∧ b = "learning")
  ∨ (a = "learning" ∧ (b = "completed" ∨ b = "error" ∨ b = "timeout"))
  ∨ ((a = "preparing" ∨ a = "ready" ∨ a = "learning") ∧ b = "timeout")
  ∨ ((a = "completed" ∨ a = "error") ∧ b = "timeout")
  ∨ (a = "timeout" ∧ b = "completed")

/-- Inductive invariant of the reachable system states: the status is one
of the six states, a watcher in the BLE sleep can only observe `learning`,
`timeout` or `completed`, a `completed` session carries a truthy payload,
and a truthy payload implies `completed` or (after a forced expiry)
`timeout`. -/
def SysInv (σ : SysState) : Prop :=
  (σ.session.status = "preparing" ∨ σ.session.status = "ready"
    ∨ σ.session.status = "learning" ∨ σ.session.status = "completed"
    ∨ σ.session.status = "error" ∨ σ.session.status = "timeout")
  ∧ (σ.phase = WatcherPhase.bleSleep →
      σ.session.status = "learning" ∨ σ.session.status = "timeout"
        ∨ σ.session.status = "completed")
  ∧ (σ.session.status = "completed" → truthy σ.session.command_data = true)
  ∧ (truthy σ.session.command_data = true →
      σ.session.status = "completed" ∨ σ.session.status = "timeout")

/-- Request body of `prepare_to_learn`; `none` marks an absent key and the
emitter dictionary is an association list (empty means falsy). -/
structure PrepareRequest where
  device_type : Option String
  emitter : Option (List (String × String))
deriving DecidableEq

/-- Request body of `check_learned_command`. -/
structure CheckRequest where
  device_type : Option String
  session_id : Option String
deriving DecidableEq

/-- Outcome of view-level validation: an early JSON response with an HTTP
status code, or control proceeding past the required-field checks. -/
inductive ViewOutcome
  | resp (code : Nat) (body : List (String × String))
  | proceed (device_type : String) (payload : List (String × String))
deriving DecidableEq

/-- Required-field validation of `WhispeerPrepareToLearnView.post`
(api.py lines 1398-1412): `data.get("device_type", "").lower()` falsy
yields the 400 response naming `device_type`, then
`data.get("emitter", {})` falsy yields the 400 response naming
`emitter`. -/
def prepareViewValidate (r : PrepareRequest) : ViewOutcome :=
  let dt := strLower (r.device_type.getD "")
  let em := r.emitter.getD []
  if dt = "" then
    ViewOutcome.resp 400
      [("status", "error"), ("message", "Missing required field: device_type")]
  else if em = [] then
    ViewOutcome.resp 400
      [("status", "error"), ("message", "Missing required field: emitter")]
  else ViewOutcome.proceed dt em

/-- Required-field validation of `WhispeerCheckLearnedCommandView.post`
(api.py lines 1476-1490). -/
def checkViewValidate (r : CheckRequest) : ViewOutcome :=
  let dt := strLower (r.device_type.getD "")
  let sid := r.session_id.getD ""
  if dt = "" then
    ViewOutcome.resp 400
      [("status", "error"), ("message", "Missing required field: device_type")]
  else if sid = "" then
    ViewOutcome.resp 400
      [("status", "error"), ("message", "Missing required field: session_id")]
  else ViewOutcome.proceed dt [("session_id", sid)]

/-- A fixed outcome of the 24 random byte draws, for concrete runs. -/
def randZero : Fin 24 → Fin 256 := fun _ => 0

/-- Watcher environment with no concurrent interference and no fault. -/
def envId : WatcherEnv := fun _ s => Except.ok s

/-- Watcher environment raising an exception with text `boom` at the first
suspension point. -/
def envFault : WatcherEnv := fun t s => Except.error ("boom", s, t)

/-- A concrete `ir` session in `learning` state with a connected device. -/
def sessionLearning : LearnSession :=
  ⟨"sess-l", "ir", some "192.168.0.7", 43392 / 100, none, some (), "learning",
    none, none, 0, 0⟩

/-- A concrete `ir` session that has completed with a captured payload. -/
def sessionCompleted : LearnSession :=
  ⟨"sess-c", "ir", some "192.168.0.7", 43392 / 100, none, some (), "completed",
    some "26004800", none, 0, 2⟩

/-- Concrete BLE run: session prepared at time 0 (ready, watcher idle). -/
def bleScenario0 : SysState :=
  ⟨(prepareToLearnBle "hci0" "session-1" 0).session, WatcherPhase.idle⟩

/-- Concrete BLE run: first poll at time 1 moves the session to `learning`
and spawns the watcher into its BLE sleep. -/
def bleScenario1 : SysState := pollPhase bleScenario0 "ble" 1 CaptureOutcome.noData

/-- Concrete BLE run: the watcher wakes at time 3 and writes the simulated
`completed` payload. -/
def bleScenario2 : SysState :=
  ⟨bleScenario1.session.update_status "completed" (some (bleCommandData randZero)) none 3,
    WatcherPhase.looping 0⟩

/-- Concrete BLE run: a poll at time 40 observes the 30-unit age ceiling
and forces the completed session to `timeout`. -/
def bleScenario3 : SysState := pollPhase bleScenario2 "ble" 40 CaptureOutcome.noData

/-! Helper lemmas about the embedded operations. -/

@[simp]
theorem update_status_status (s : LearnSession) (st : String)
    (cd em : Option String) (t : Int) :
    (s.update_status st cd em t).status = st := rfl

@[simp]
theorem update_status_created_at (s : LearnSession) (st : String)
    (cd em : Option String) (t : Int) :
    (s.update_status st cd em t).created_at = s.created_at := rfl

@[simp]
theorem update_status_session_id (s : LearnSession) (st : String)
    (cd em : Option String) (t : Int) :
    (s.update_status st cd em t).session_id = s.session_id := rfl

@[simp]
theorem update_status_device_type (s : LearnSession) (st : String)
    (cd em : Option String) (t : Int) :
    (s.update_status st cd em t).device_type = s.device_type := rfl

@[simp]
theorem update_status_device (s : LearnSession) (st : String)
    (cd em : Option String) (t : Int) :
    (s.update_status st cd em t).device = s.device := rfl

@[simp]
theorem update_status_updated_at (s : LearnSession) (st : String)
    (cd em : Option String) (t : Int) :
    (s.update_status st cd em t).updated_at = t := rfl

@[simp]
theorem update_status_command_data_none (s : LearnSession) (st : String)
    (em : Option String) (t : Int) :
    (s.update_status st none em t).command_data = s.command_data := rfl

@[simp]
theorem update_status_error_message_none (s : LearnSession) (st : String)
    (cd : Option String) (t : Int) :
    (s.update_status st cd none t).error_message = s.error_message := rfl

theorem update_status_command_data_truthy (s : LearnSession) (st : String)
    (cd em : Option String) (t : Int) (h : truthy cd = true) :
    (s.update_status st cd em t).command_data = cd := by
  simp [LearnSession.update_status, h]

theorem update_status_error_message_truthy (s : LearnSession) (st : String)
    (cd em : Option String) (t : Int) (h : truthy em = true) :
    (s.update_status st cd em t).error_message = em := by
  simp [LearnSession.update_status, h]

theorem truthy_some_iff (x : String) : truthy (some x) = true ↔ ¬ x = "" := by
  simp [truthy]

theorem bytesToHexList_length (bs : List (Fin 256)) :
    (bytesToHexList bs).length = 2 * bs.length := by
  induction bs with
  | nil => rfl
  | cons b bs ih => simp [bytesToHexList, ih]; ring

theorem bytesToHex_length (bs : List (Fin 256)) :
    (bytesToHex bs).length = 2 * bs.length := by
  simpa [bytesToHex, String.length] using bytesToHexList_length bs

theorem bytesToHex_ne_empty (bs : List (Fin 256)) (h : ¬ bs = []) :
    ¬ bytesToHex bs = "" := by
  intro he
  have hd := congrArg String.data he
  cases bs with
  | nil => exact h rfl
  | cons b tl => simp [bytesToHex, bytesToHexList] at hd

theorem bytesToHex_truthy (bs : List (Fin 256)) (h : ¬ bs = []) :
    truthy (some (bytesToHex bs)) = true := by
  simp [truthy, bytesToHex_ne_empty bs h]

theorem bleCommandData_length (rand : Fin 24 → Fin 256) :
    (bleCommandData rand).length = 48 := by
  simp [bleCommandData, bytesToHex_length]

theorem bleCommandData_ne_empty (rand : Fin 24 → Fin 256) :
    ¬ bleCommandData rand = "" := by
  apply bytesToHex_ne_empty
  intro h
  have hlen := congrArg List.length h
  simp at hlen

theorem bleCommandData_truthy (rand : Fin 24 → Fin 256) :
    truthy (some (bleCommandData rand)) = true := by
  simp [truthy, bleCommandData_ne_empty rand]

theorem hexDigit_isHexChar (n : Nat) (h : n < 16) :
    isHexChar (hexDigit n) = true := by
  interval_cases n <;> decide

theorem bytesToHexList_hex (bs : List (Fin 256)) :
    (bytesToHexList bs).all isHexChar = true := by
  induction bs with
  | nil => rfl
  | cons b tl ih =>
    have h1 : b.val / 16 < 16 := by
      have := b.isLt
      omega
    have h2 : b.val % 16 < 16 := Nat.mod_lt _ (by omega)
    simp [bytesToHexList, List.all_cons, hexDigit_isHexChar _ h1,
      hexDigit_isHexChar _ h2, ih]

theorem bleCommandData_hex (rand : Fin 24 → Fin 256) :
    isHexString (bleCommandData rand) = true := by
  simpa [isHexString, bleCommandData, bytesToHex] using
    bytesToHexList_hex (List.ofFn fun i => rand i)

theorem pollCases (s : LearnSession) (dt : String) (t : Int) (cap : CaptureOutcome) :
    (t - s.created_at > 30
      ∧ (checkLearnedCommand s dt t cap).session = s.update_status "timeout" none none t
      ∧ (checkLearnedCommand s dt t cap).spawned = false)
  ∨ (¬ t - s.created_at > 30 ∧ s.status = "ready"
      ∧ (checkLearnedCommand s dt t cap).session = s.update_status "learning" none none t
      ∧ (checkLearnedCommand s dt t cap).spawned = true)
  ∨ (¬ t - s.created_at > 30 ∧ s.status = "learning"
      ∧ (∃ b, cap = CaptureOutcome.data b ∧ ¬ b = []
          ∧ (checkLearnedCommand s dt t cap).session
              = s.update_status "completed" (some (bytesToHex b)) none t)
      ∧ (checkLearnedCommand s dt t cap).spawned = false)
  ∨ ((checkLearnedCommand s dt t cap).session = s
      ∧ (checkLearnedCommand s dt t cap).spawned = false) := by
  by_cases h1 : t - s.created_at > 30
  · exact Or.inl ⟨h1, by simp [checkLearnedCommand, h1],
      by simp [checkLearnedCommand, h1]⟩
  by_cases h2 : s.status = "completed"
  · refine Or.inr (Or.inr (Or.inr ⟨?_, ?_⟩)) <;>
      simp [checkLearnedCommand, h1, h2]
  by_cases h3 : s.status = "error"
  · refine Or.inr (Or.inr (Or.inr ⟨?_, ?_⟩)) <;>
      simp [checkLearnedCommand, h1, h2, h3]
  by_cases h4 : s.status = "timeout"
  · refine Or.inr (Or.inr (Or.inr ⟨?_, ?_⟩)) <;>
      simp [checkLearnedCommand, h1, h2, h3, h4]
  by_cases h5 : s.status = "ready"
  · refine Or.inr (Or.inl ⟨h1, h5, ?_, ?_⟩) <;>
      simp [checkLearnedCommand, h1, h2, h3, h4, h5]
  by_cases h6 : s.status = "learning"
  · by_cases h7 : strLower dt = "ir" ∨ strLower dt = "rf"
    · by_cases h8 : s.device.isSome
      · cases cap with
        | noData =>
          refine Or.inr (Or.inr (Or.inr ⟨?_, ?_⟩)) <;>
            simp [checkLearnedCommand, h1, h2, h3, h4, h5, h6, h7, h8]
        | data b =>
          by_cases h9 : b = []
          · refine Or.inr (Or.inr (Or.inr ⟨?_, ?_⟩)) <;>
              simp [checkLearnedCommand, h1, h2, h3, h4, h5, h6, h7, h8, h9]
          · refine Or.inr (Or.inr (Or.inl ⟨h1, h6, ⟨b, rfl, h9, ?_⟩, ?_⟩)) <;>
              simp [checkLearnedCommand, h1, h2, h3, h4, h5, h6, h7, h8, h9]
        | storageFull =>
          refine Or.inr (Or.inr (Or.inr ⟨?_, ?_⟩)) <;>
            simp [checkLearnedCommand, h1, h2, h3, h4, h5, h6, h7, h8]
        | otherError m =>
          refine Or.inr (Or.inr (Or.inr ⟨?_, ?_⟩)) <;>
            simp [checkLearnedCommand, h1, h2, h3, h4, h5, h6, h7, h8]
      · refine Or.inr (Or.inr (Or.inr ⟨?_, ?_⟩)) <;>
          simp [checkLearnedCommand, h1, h2, h3, h4, h5, h6, h7, h8]
    · refine Or.inr (Or.inr (Or.inr ⟨?_, ?_⟩)) <;>
        simp [checkLearnedCommand, h1, h2, h3, h4, h5, h6, h7]
  · refine Or.inr (Or.inr (Or.inr ⟨?_, ?_⟩)) <;>
      simp [checkLearnedCommand, h1, h2, h3, h4, h5, h6]

theorem sysInv_init_broadlink (device_type device_ip : String) (frequency : ℚ)
    (conn : ConnectOutcome) (sid : String) (t : Int) :
    SysInv ⟨(prepareToLearn device_type device_ip frequency conn sid t).session,
      WatcherPhase.idle⟩ := by
  cases conn with
  | failed => simp [SysInv, prepareToLearn, LearnSession.update_status, truthy]
  | connected =>
    by_cases hir : strLower device_type = "ir"
    · simp [SysInv, prepareToLearn, hir, LearnSession.update_status, truthy]
    · by_cases hrf : strLower device_type = "rf"
      · simp [SysInv, prepareToLearn, hir, hrf, LearnSession.update_status, truthy]
      · simp [SysInv, prepareToLearn, hir, hrf, LearnSession.update_status, truthy]

theorem sysInv_init_ble (iface sid : String) (t : Int) :
    SysInv ⟨(prepareToLearnBle iface sid t).session, WatcherPhase.idle⟩ := by
  simp [SysInv, prepareToLearnBle, LearnSession.update_status, truthy]

theorem step_sysInv (σ σ2 : SysState) (hinv : SysInv σ) (hs : Step σ σ2) :
    SysInv σ2 := by
  obtain ⟨ha, hb, hc, hd⟩ := hinv
  cases hs with
  | poll dt t cap =>
    rcases pollCases σ.session dt t cap with
        ⟨hexp, hses, hsp⟩ | ⟨hexp, hst, hses, hsp⟩
      | ⟨hexp, hst, ⟨b, hcap, hb0, hses⟩, hsp⟩ | ⟨hses, hsp⟩
    · refine ⟨?_, ?_, ?_, ?_⟩ <;> simp [pollPhase, hses, hsp]
    · refine ⟨?_, ?_, ?_, ?_⟩
      · simp [pollPhase, hses]
      · simp [pollPhase, hses, hsp]
      · simp [pollPhase, hses]
      · simp only [pollPhase, hses, update_status_command_data_none,
          update_status_status]
        intro htr
        rcases hd htr with h | h <;> rw [hst] at h <;> simp at h
    · refine ⟨?_, ?_, ?_, ?_⟩
      · simp [pollPhase, hses]
      · simp [pollPhase, hses, hsp]
      · simp only [pollPhase, hses, update_status_status]
        intro _
        rw [update_status_command_data_truthy _ _ _ _ _ (bytesToHex_truthy b hb0)]
        exact bytesToHex_truthy b hb0
      · simp [pollPhase, hses]
    · refine ⟨?_, ?_, ?_, ?_⟩
      · simpa [pollPhase, hses] using ha
      · simpa [pollPhase, hses, hsp] using hb
      · simpa [pollPhase, hses] using hc
      · simpa [pollPhase, hses] using hd
  | bleWake t rand hph =>
    refine ⟨?_, ?_, ?_, ?_⟩
    · simp
    · simp
    · intro _
      rw [update_status_command_data_truthy _ _ _ _ _ (bleCommandData_truthy rand)]
      exact bleCommandData_truthy rand
    · simp
  | loopTick e hph hlt hst =>
    exact ⟨ha, by simp, hc, fun htr => hd htr⟩
  | loopExit e t hph hcond =>
    by_cases hl : σ.session.status = "learning"
    · refine ⟨?_, ?_, ?_, ?_⟩ <;> simp [hl]
    · refine ⟨?_, ?_, ?_, ?_⟩
      · simpa [hl] using ha
      · simp
      · simpa [hl] using hc
      · simpa [hl] using hd
  | wFault t msg hph hl =>
    refine ⟨?_, ?_, ?_, ?_⟩
    · simp
    · simp
    · simp
    · simp only [update_status_command_data_none, update_status_status]
      intro htr
      rcases hd htr with h | h <;> rw [hl] at h <;> simp at h

theorem reachable_sysInv (σ : SysState) (h : Reachable σ) : SysInv σ := by
  induction h with
  | initBroadlink device_type device_ip frequency conn sid t =>
    exact sysInv_init_broadlink device_type device_ip frequency conn sid t
  | initBle iface sid t => exact sysInv_init_ble iface sid t
  | step σ σ2 hr hs ih => exact step_sysInv σ σ2 ih hs

theorem watcherLoopE_not_learning (env : WatcherEnv) (n : Nat) (t : Int)
    (s : LearnSession) (h : ¬ s.status = "learning") :
    watcherLoopE env n t s = Except.ok (s, t) := by
  cases n with
  | zero => rfl
  | succ m => simp [watcherLoopE, h]

theorem watcherLoopE_time (env : WatcherEnv) :
    ∀ (n : Nat) (t : Int) (s s2 : LearnSession) (t2 : Int),
      watcherLoopE env n t s = Except.ok (s2, t2) → t2 ≤ t + n := by
  intro n
  induction n with
  | zero =>
    intro t s s2 t2 h
    simp [watcherLoopE] at h
    omega
  | succ m ih =>
    intro t s s2 t2 h
    by_cases hl : s.status = "learning"
    · rw [watcherLoopE, if_pos hl] at h
      cases he : env t s with
      | ok snext =>
        rw [he] at h
        have := ih (t + 1) snext s2 t2 h
        omega
      | error e =>
        rw [he] at h
        exact absurd h (by simp)
    · rw [watcherLoopE, if_neg hl] at h
      simp at h
      omega

theorem bleScenario1_reachable : Reachable bleScenario1 :=
  Reachable.step bleScenario0 bleScenario1
    (Reachable.initBle "hci0" "session-1" 0)
    (Step.poll bleScenario0 "ble" 1 CaptureOutcome.noData)

theorem bleScenario2_reachable : Reachable bleScenario2 :=
  Reachable.step bleScenario1 bleScenario2 bleScenario1_reachable
    (Step.bleWake bleScenario1 3 randZero (by decide))

theorem bleScenario3_reachable : Reachable bleScenario3 :=
  Reachable.step bleScenario2 bleScenario3 bleScenario2_reachable
    (Step.poll bleScenario2 "ble" 40 CaptureOutcome.noData)

theorem statusStepOK_terminal (a b : String) (hok : StatusStepOK a b)
    (hterm : terminalStatus a) :
    b = a ∨ ((a = "completed" ∨ a = "error") ∧ b = "timeout")
      ∨ (a = "timeout" ∧ b = "completed") := by
  rcases hterm with h | h | h <;> subst h <;>
    rcases hok with h | ⟨h1, h2⟩ | ⟨h1, h2⟩ | ⟨h1, h2⟩ | ⟨h1, h2⟩ | ⟨h1, h2⟩ <;>
    simp_all

/-- Claim C1, amended: for every poll of a known session whose age
(`now - created_at`) exceeds 30 time units, the poll forces the status to
`timeout` and reports `timeout` regardless of the prior status - including
sessions already `completed` or `error`, whose recorded terminal status is
overridden rather than reported.  The stored payload and error text are
preserved by the forced transition. -/
theorem C1_expiry_overrides_terminal (s : LearnSession) (dt : String) (t : Int)
    (cap : CaptureOutcome) (hexp : t - s.created_at > 30) :
    (checkLearnedCommand s dt t cap).session.status = "timeout"
    ∧ (checkLearnedCommand s dt t cap).resp.learning_status = some "timeout"
    ∧ (checkLearnedCommand s dt t cap).resp.status = "error"
    ∧ (checkLearnedCommand s dt t cap).resp.message = "Learning session timed out"
    ∧ (checkLearnedCommand s dt t cap).session.command_data = s.command_data
    ∧ (checkLearnedCommand s dt t cap).session.error_message = s.error_message := by
  refine ⟨?_, ?_, ?_, ?_, ?_, ?_⟩ <;> simp [checkLearnedCommand, hexp]

theorem C1_witness :
    (31 : Int) - sessionCompleted.created_at > 30
    ∧ (checkLearnedCommand sessionCompleted "ir" 31 CaptureOutcome.noData).session.status
        = "timeout"
    ∧ (checkLearnedCommand sessionCompleted "ir" 31 CaptureOutcome.noData).resp.learning_status
        = some "timeout" :=
  ⟨by decide,
    (C1_expiry_overrides_terminal sessionCompleted "ir" 31 CaptureOutcome.noData
      (by decide)).1,
    (C1_expiry_overrides_terminal sessionCompleted "ir" 31 CaptureOutcome.noData
      (by decide)).2.1⟩

theorem C1_counterexample :
    Reachable bleScenario2
    ∧ bleScenario2.session.status = "completed"
    ∧ (40 : Int) - bleScenario2.session.created_at > 30
    ∧ (checkLearnedCommand bleScenario2.session "ble" 40 CaptureOutcome.noData).resp.learning_status
        = some "timeout"
    ∧ ¬ (checkLearnedCommand bleScenario2.session "ble" 40 CaptureOutcome.noData).resp.learning_status
        = some "completed"
    ∧ (checkLearnedCommand bleScenario2.session "ble" 40 CaptureOutcome.noData).session.status
        = "timeout" :=
  ⟨bleScenario2_reachable, by decide, by decide, by decide, by decide, by decide⟩

/-- Claim C2, amended: along every reachable transition the status moves
forward along the graph preparing → ready → learning →
\x7bcompleted, error, timeout\x7d, with two codified escapes from terminal
states: a poll observing a session age above 30 forces a `completed` or
`error` session to `timeout`, and the BLE watcher simulated-completion
write may overwrite a forced `timeout` with `completed`. -/
theorem C2_forward_with_exceptions (σ σ2 : SysState) (hr : Reachable σ)
    (hs : Step σ σ2) :
    StatusStepOK σ.session.status σ2.session.status
    ∧ (terminalStatus σ.session.status →
        σ2.session.status = σ.session.status
        ∨ ((σ.session.status = "completed" ∨ σ.session.status = "error")
            ∧ σ2.session.status = "timeout")
        ∨ (σ.session.status = "timeout" ∧ σ2.session.status = "completed")) := by
  obtain ⟨ha, hb, hc, hd⟩ := reachable_sysInv σ hr
  have hok : StatusStepOK σ.session.status σ2.session.status := by
    cases hs with
    | poll dt t cap =>
      rcases pollCases σ.session dt t cap with
          ⟨hexp, hses, hsp⟩ | ⟨hexp, hst, hses, hsp⟩
        | ⟨hexp, hst, ⟨b, hcap, hb0, hses⟩, hsp⟩ | ⟨hses, hsp⟩
      · rcases ha with h | h | h | h | h | h <;>
          simp [StatusStepOK, pollPhase, hses, h]
      · simp [StatusStepOK, pollPhase, hses, hst]
      · simp [StatusStepOK, pollPhase, hses, hst]
      · simp [StatusStepOK, pollPhase, hses]
    | bleWake t rand hph =>
      rcases hb hph with h | h | h <;> simp [StatusStepOK, h]
    | loopTick e hph hlt hst => simp [StatusStepOK]
    | loopExit e t hph hcond =>
      by_cases hl : σ.session.status = "learning"
      · simp [StatusStepOK, hl]
      · simp [StatusStepOK, hl]
    | wFault t msg hph hl => simp [StatusStepOK, hl]
  refine ⟨hok, fun hterm => ?_⟩
  rcases statusStepOK_terminal _ _ hok hterm with h | h | h
  · exact Or.inl h
  · exact Or.inr (Or.inl h)
  · exact Or.inr (Or.inr h)

theorem C2_witness :
    StatusStepOK bleScenario0.session.status bleScenario1.session.status
    ∧ (terminalStatus bleScenario0.session.status →
        bleScenario1.session.status = bleScenario0.session.status
        ∨ ((bleScenario0.session.status = "completed"
              ∨ bleScenario0.session.status = "error")
            ∧ bleScenario1.session.status = "timeout")
        ∨ (bleScenario0.session.status = "timeout"
            ∧ bleScenario1.session.status = "completed")) :=
  C2_forward_with_exceptions bleScenario0 bleScenario1
    (Reachable.initBle "hci0" "session-1" 0)
    (Step.poll bleScenario0 "ble" 1 CaptureOutcome.noData)

theorem C2_counterexample :
    Reachable bleScenario2
    ∧ Step bleScenario2 bleScenario3
    ∧ terminalStatus bleScenario2.session.status
    ∧ bleScenario2.session.status = "completed"
    ∧ bleScenario3.session.status = "timeout"
    ∧ ¬ bleScenario3.session.status = bleScenario2.session.status :=
  ⟨bleScenario2_reachable,
    Step.poll bleScenario2 "ble" 40 CaptureOutcome.noData,
    by left; decide, by decide, by decide, by decide⟩

/-- Claim C3: for every session whose status is `ready`, `completed`,
`error` or `timeout`, repeated polls with no intervening external event
(same time, capture check returning no data) return the same response and
leave the same status, the single state change being the one-time
`ready` to `learning` transition performed by the first poll on a
non-expired `ready` session; a non-`ready` non-expired session is left
entirely unchanged. -/
theorem C3_poll_idempotent (s : LearnSession) (dt : String) (t : Int)
    (hst : s.status = "ready" ∨ s.status = "completed" ∨ s.status = "error"
      ∨ s.status = "timeout") :
    ((checkLearnedCommand (checkLearnedCommand s dt t CaptureOutcome.noData).session
        dt t CaptureOutcome.noData).resp
      = (checkLearnedCommand s dt t CaptureOutcome.noData).resp)
    ∧ ((checkLearnedCommand (checkLearnedCommand s dt t CaptureOutcome.noData).session
        dt t CaptureOutcome.noData).session.status
      = (checkLearnedCommand s dt t CaptureOutcome.noData).session.status)
    ∧ (s.status = "ready" → ¬ t - s.created_at > 30 →
        (checkLearnedCommand s dt t CaptureOutcome.noData).session.status = "learning")
    ∧ (¬ s.status = "ready" → ¬ t - s.created_at > 30 →
        (checkLearnedCommand s dt t CaptureOutcome.noData).session = s) := by
  by_cases hexp : t - s.created_at > 30
  · refine ⟨?_, ?_, ?_, ?_⟩
    · simp [checkLearnedCommand, hexp]
    · simp [checkLearnedCommand, hexp]
    · intro _ h
      exact absurd hexp h
    · intro _ h
      exact absurd hexp h
  · rcases hst with h | h | h | h
    · by_cases h7 : strLower dt = "ir" ∨ strLower dt = "rf"
      · cases hdev : s.device with
        | none =>
          refine ⟨?_, ?_, ?_, ?_⟩ <;>
            simp [checkLearnedCommand, hexp, h, h7, hdev, stillLearningResp]
        | some u =>
          refine ⟨?_, ?_, ?_, ?_⟩ <;>
            simp [checkLearnedCommand, hexp, h, h7, hdev, stillLearningResp]
      · refine ⟨?_, ?_, ?_, ?_⟩ <;>
          simp [checkLearnedCommand, hexp, h, h7, stillLearningResp]
    · refine ⟨?_, ?_, ?_, ?_⟩ <;> simp [checkLearnedCommand, hexp, h]
    · refine ⟨?_, ?_, ?_, ?_⟩ <;> simp [checkLearnedCommand, hexp, h]
    · refine ⟨?_, ?_, ?_, ?_⟩ <;> simp [checkLearnedCommand, hexp, h]

theorem C3_witness :
    ((checkLearnedCommand
        (checkLearnedCommand sessionCompleted "ir" 5 CaptureOutcome.noData).session
        "ir" 5 CaptureOutcome.noData).resp
      = (checkLearnedCommand sessionCompleted "ir" 5 CaptureOutcome.noData).resp)
    ∧ (checkLearnedCommand sessionCompleted "ir" 5 CaptureOutcome.noData).session
        = sessionCompleted :=
  ⟨(C3_poll_idempotent sessionCompleted "ir" 5 (by decide)).1,
    (C3_poll_idempotent sessionCompleted "ir" 5 (by decide)).2.2.2
      (by decide) (by decide)⟩

/-- Claim C4, amended: in every reachable state, a `completed` session has
a non-empty `command_data`, and a non-empty `command_data` implies status
`completed` or `timeout` - the latter because a poll after the 30-unit age
ceiling forces a completed session to `timeout` while preserving its
payload. -/
theorem C4_payload_invariant (σ : SysState) (hr : Reachable σ) :
    (σ.session.status = "completed" → truthy σ.session.command_data = true)
    ∧ (truthy σ.session.command_data = true →
        σ.session.status = "completed" ∨ σ.session.status = "timeout") :=
  ⟨(reachable_sysInv σ hr).2.2.1, (reachable_sysInv σ hr).2.2.2⟩

theorem C4_witness :
    truthy bleScenario2.session.command_data = true :=
  (C4_payload_invariant bleScenario2 bleScenario2_reachable).1 (by decide)

theorem C4_counterexample :
    Reachable bleScenario3
    ∧ bleScenario3.session.status = "timeout"
    ∧ ¬ bleScenario3.session.status = "completed"
    ∧ truthy bleScenario3.session.command_data = true :=
  ⟨bleScenario3_reachable, by decide, by decide, by decide⟩

/-- Claim C5: the background watcher never ends with the session still in
`learning` - whatever the interleaved environment does, the run finishes
with a non-`learning` status, the loop leaves at most 25 time units after
it begins (on top of the 2-unit BLE sleep), a session still `learning`
when the budget elapses is transitioned to `timeout`, and an exception
raised inside the watcher is caught and converted into an `error`
transition storing the (non-empty) exception text as the error detail. -/
theorem C5_watcher_safety (env : WatcherEnv) (rand : Fin 24 → Fin 256)
    (t0 : Int) (s0 : LearnSession) :
    (¬ (performLearningE env rand t0 s0).status = "learning")
    ∧ (∀ s2 t2, performBody env rand t0 s0 = Except.ok (s2, t2) →
        s2.status = "learning" →
        performLearningE env rand t0 s0 = s2.update_status "timeout" none none t2
        ∧ (performLearningE env rand t0 s0).status = "timeout")
    ∧ (∀ s2 t2, performBody env rand t0 s0 = Except.ok (s2, t2) →
        t2 ≤ (if strLower s0.device_type = "ble" then t0 + 2 else t0) + 25)
    ∧ (∀ msg sf tf, performBody env rand t0 s0 = Except.error (msg, sf, tf) →
        performLearningE env rand t0 s0 = sf.update_status "error" none (some msg) tf
        ∧ (performLearningE env rand t0 s0).status = "error"
        ∧ (¬ msg = "" →
            (performLearningE env rand t0 s0).error_message = some msg)) := by
  refine ⟨?_, ?_, ?_, ?_⟩
  · cases hb : performBody env rand t0 s0 with
    | ok p =>
      obtain ⟨s2, t2⟩ := p
      by_cases hl : s2.status = "learning"
      · simp [performLearningE, hb, hl]
      · simp [performLearningE, hb, hl]
    | error e =>
      obtain ⟨msg, sf, tf⟩ := e
      simp [performLearningE, hb]
  · intro s2 t2 hb hl
    refine ⟨?_, ?_⟩ <;> simp [performLearningE, hb, hl]
  · intro s2 t2 hb
    by_cases hble : strLower s0.device_type = "ble"
    · rw [performBody, if_pos hble] at hb
      split at hb
      · simp at hb
      · split at hb
        · simp at hb
        · have := watcherLoopE_time env 25 (t0 + 2) _ s2 t2 hb
          simp [hble]
          omega
    · rw [performBody, if_neg hble] at hb
      have := watcherLoopE_time env 25 t0 s0 s2 t2 hb
      simp [hble]
      omega
  · intro msg sf tf hb
    refine ⟨?_, ?_, ?_⟩
    · simp [performLearningE, hb]
    · simp [performLearningE, hb]
    · intro hmsg
      simp only [performLearningE, hb]
      exact update_status_error_message_truthy sf "error" none (some msg) tf
        (by simp [truthy, hmsg])

theorem C5_witness :
    performBody envFault randZero 0 sessionLearning
        = Except.error ("boom", sessionLearning, 0)
    ∧ (performLearningE envFault randZero 0 sessionLearning).status = "error"
    ∧ (performLearningE envFault randZero 0 sessionLearning).error_message = some "boom"
    ∧ performBody envId randZero 0 sessionLearning
        = Except.ok (sessionLearning, 25)
    ∧ (performLearningE envId randZero 0 sessionLearning).status = "timeout" := by
  have h1 := (C5_watcher_safety envFault randZero 0 sessionLearning).2.2.2
    "boom" sessionLearning 0 rfl
  have h2 := (C5_watcher_safety envId randZero 0 sessionLearning).2.1
    sessionLearning 25 rfl (by decide)
  exact ⟨rfl, h1.2.1, h1.2.2 (by decide), rfl, h2.2⟩

/-- Claim C6: a poll of a non-expired `learning` session for an `ir` or
`rf` device with a connected handle, on which `check_data` raises the
recognized storage-is-full condition, leaves the session entirely
unchanged (in particular the status stays `learning` and the error detail
is not populated) and returns a success response with learning status
`learning`. -/
theorem C6_storage_full_transient (s : LearnSession) (dt : String) (t : Int)
    (hst : s.status = "learning") (hexp : ¬ t - s.created_at > 30)
    (h7 : strLower dt = "ir" ∨ strLower dt = "rf") (hdev : s.device = some ()) :
    (checkLearnedCommand s dt t CaptureOutcome.storageFull).session = s
    ∧ (checkLearnedCommand s dt t CaptureOutcome.storageFull).resp.status = "success"
    ∧ (checkLearnedCommand s dt t CaptureOutcome.storageFull).resp.learning_status
        = some "learning"
    ∧ (checkLearnedCommand s dt t CaptureOutcome.storageFull).session.error_message
        = s.error_message
    ∧ (checkLearnedCommand s dt t CaptureOutcome.storageFull).session.status
        = "learning" := by
  refine ⟨?_, ?_, ?_, ?_, ?_⟩ <;>
    simp [checkLearnedCommand, hst, hexp, h7, hdev, stillLearningResp]

theorem C6_witness :
    (checkLearnedCommand sessionLearning "ir" 5 CaptureOutcome.storageFull).session
        = sessionLearning
    ∧ (checkLearnedCommand sessionLearning "ir" 5 CaptureOutcome.storageFull).resp.learning_status
        = some "learning" :=
  ⟨(C6_storage_full_transient sessionLearning "ir" 5 (by decide) (by decide)
      (by decide) (by decide)).1,
    (C6_storage_full_transient sessionLearning "ir" 5 (by decide) (by decide)
      (by decide) (by decide)).2.2.1⟩

theorem truthy_none : truthy none = false := rfl

theorem strLower_ble : strLower "ble" = "ble" := by decide

/-- Claim C7: a BLE prepare reaches `ready` without invoking the external
device connector; a first poll within the age ceiling moves the session to
`learning`; and the background watcher alone (no concurrent interference)
writes a pseudo-random non-empty `completed` payload of 48 hexadecimal
characters exactly 2 time units after the watcher starts - within the
claimed 2 to 3 units of entering `learning`. -/
theorem C7_ble_flow (iface sid : String) (t0 t1 : Int) (rand : Fin 24 → Fin 256)
    (dt : String) (cap : CaptureOutcome) (hexp : ¬ t1 - t0 > 30) :
    (prepareToLearnBle iface sid t0).connectorCalls = 0
    ∧ (prepareToLearnBle iface sid t0).session.status = "ready"
    ∧ (checkLearnedCommand (prepareToLearnBle iface sid t0).session dt t1 cap).session.status
        = "learning"
    ∧ (performLearningE envId rand t1
        (checkLearnedCommand (prepareToLearnBle iface sid t0).session dt t1 cap).session).status
        = "completed"
    ∧ (performLearningE envId rand t1
        (checkLearnedCommand (prepareToLearnBle iface sid t0).session dt t1 cap).session).command_data
        = some (bleCommandData rand)
    ∧ (performLearningE envId rand t1
        (checkLearnedCommand (prepareToLearnBle iface sid t0).session dt t1 cap).session).updated_at
        = t1 + 2
    ∧ 2 ≤ (performLearningE envId rand t1
        (checkLearnedCommand (prepareToLearnBle iface sid t0).session dt t1 cap).session).updated_at
        - t1
    ∧ (performLearningE envId rand t1
        (checkLearnedCommand (prepareToLearnBle iface sid t0).session dt t1 cap).session).updated_at
        - t1 ≤ 3
    ∧ (bleCommandData rand).length = 48
    ∧ isHexString (bleCommandData rand) = true
    ∧ ¬ bleCommandData rand = "" := by
  have hR : (prepareToLearnBle iface sid t0).session
      = ⟨sid, "ble", none, 43392 / 100, some iface, none, "ready",
          none, none, t0, t0⟩ := rfl
  have hL : (checkLearnedCommand (prepareToLearnBle iface sid t0).session dt t1 cap).session
      = ⟨sid, "ble", none, 43392 / 100, some iface, none, "learning",
          none, none, t0, t1⟩ := by
    simp [checkLearnedCommand, hR, hexp, LearnSession.update_status, truthy_none]
  have hbody : performBody envId rand t1
      (⟨sid, "ble", none, 43392 / 100, some iface, none, "learning",
          none, none, t0, t1⟩ : LearnSession)
      = Except.ok
          (⟨sid, "ble", none, 43392 / 100, some iface, none, "completed",
            some (bleCommandData rand), none, t0, t1 + 2⟩, t1 + 2) := by
    simp [performBody, envId, LearnSession.update_status, truthy_none,
      bleCommandData_truthy rand, watcherLoopE_not_learning, strLower_ble]
  have hfinal : performLearningE envId rand t1
      (⟨sid, "ble", none, 43392 / 100, some iface, none, "learning",
          none, none, t0, t1⟩ : LearnSession)
      = ⟨sid, "ble", none, 43392 / 100, some iface, none, "completed",
          some (bleCommandData rand), none, t0, t1 + 2⟩ := by
    simp [performLearningE, hbody]
  refine ⟨rfl, rfl, ?_, ?_, ?_, ?_, ?_, ?_,
    bleCommandData_length rand, bleCommandData_hex rand, bleCommandData_ne_empty rand⟩
  · rw [hL]
  · rw [hL, hfinal]
  · rw [hL, hfinal]
  · rw [hL, hfinal]
  · rw [hL, hfinal]
    dsimp only
    omega
  · rw [hL, hfinal]
    dsimp only
    omega

theorem C7_witness :
    (prepareToLearnBle "hci0" "w7" 0).connectorCalls = 0
    ∧ (checkLearnedCommand (prepareToLearnBle "hci0" "w7" 0).session "ble" 1
        CaptureOutcome.noData).session.status = "learning"
    ∧ (performLearningE envId randZero 1
        (checkLearnedCommand (prepareToLearnBle "hci0" "w7" 0).session "ble" 1
          CaptureOutcome.noData).session).status = "completed"
    ∧ (performLearningE envId randZero 1
        (checkLearnedCommand (prepareToLearnBle "hci0" "w7" 0).session "ble" 1
          CaptureOutcome.noData).session).updated_at = 3 :=
  ⟨(C7_ble_flow "hci0" "w7" 0 1 randZero "ble" CaptureOutcome.noData (by decide)).1,
    (C7_ble_flow "hci0" "w7" 0 1 randZero "ble" CaptureOutcome.noData (by decide)).2.2.1,
    (C7_ble_flow "hci0" "w7" 0 1 randZero "ble" CaptureOutcome.noData (by decide)).2.2.2.1,
    (C7_ble_flow "hci0" "w7" 0 1 randZero "ble" CaptureOutcome.noData (by decide)).2.2.2.2.2.1⟩

/-- Claim C8, amended: for every session in the `ready` state whose age
does not exceed the 30-unit ceiling, the first poll transitions it to
`learning`, spawns the background watcher, and returns learning status
`learning`; an expired `ready` session is instead forced to `timeout` with
no watcher spawned; a poll in any state other than `ready` never spawns a
watcher; and no poll ever leaves the session in `ready`, so the spawn can
happen at most once per session. -/
theorem C8_first_poll_spawns (s : LearnSession) (dt : String) (t : Int)
    (cap : CaptureOutcome) :
    (s.status = "ready" → ¬ t - s.created_at > 30 →
      (checkLearnedCommand s dt t cap).spawned = true
      ∧ (checkLearnedCommand s dt t cap).session.status = "learning"
      ∧ (checkLearnedCommand s dt t cap).resp.learning_status = some "learning")
    ∧ (s.status = "ready" → t - s.created_at > 30 →
      (checkLearnedCommand s dt t cap).spawned = false
      ∧ (checkLearnedCommand s dt t cap).session.status = "timeout")
    ∧ (¬ s.status = "ready" → (checkLearnedCommand s dt t cap).spawned = false)
    ∧ ¬ (checkLearnedCommand s dt t cap).session.status = "ready" := by
  refine ⟨?_, ?_, ?_, ?_⟩
  · intro h hexp
    refine ⟨?_, ?_, ?_⟩ <;> simp [checkLearnedCommand, h, hexp, stillLearningResp]
  · intro h hexp
    refine ⟨?_, ?_⟩ <;> simp [checkLearnedCommand, hexp]
  · intro h
    rcases pollCases s dt t cap with
        ⟨_, _, hsp⟩ | ⟨_, hst, _, _⟩ | ⟨_, _, _, hsp⟩ | ⟨_, hsp⟩
    · exact hsp
    · exact absurd hst h
    · exact hsp
    · exact hsp
  · by_cases hr : s.status = "ready"
    · by_cases hexp : t - s.created_at > 30
      · simp [checkLearnedCommand, hexp]
      · simp [checkLearnedCommand, hexp, hr]
    · rcases pollCases s dt t cap with
          ⟨_, hses, _⟩ | ⟨_, hst, _, _⟩ | ⟨_, _, ⟨b, _, _, hses⟩, _⟩ | ⟨hses, _⟩
      · simp [hses]
      · exact absurd hst hr
      · simp [hses]
      · rw [hses]
        exact hr

theorem C8_witness :
    bleScenario0.session.status = "ready"
    ∧ (checkLearnedCommand bleScenario0.session "ble" 1 CaptureOutcome.noData).spawned = true
    ∧ (checkLearnedCommand bleScenario0.session "ble" 1 CaptureOutcome.noData).session.status
        = "learning"
    ∧ (checkLearnedCommand sessionLearning "ir" 5 CaptureOutcome.noData).spawned = false :=
  ⟨by decide,
    ((C8_first_poll_spawns bleScenario0.session "ble" 1 CaptureOutcome.noData).1
      (by decide) (by decide)).1,
    ((C8_first_poll_spawns bleScenario0.session "ble" 1 CaptureOutcome.noData).1
      (by decide) (by decide)).2.1,
    (C8_first_poll_spawns sessionLearning "ir" 5 CaptureOutcome.noData).2.2.1
      (by decide)⟩

theorem C8_counterexample :
    (prepareToLearnBle "hci0" "c8" 0).session.status = "ready"
    ∧ (31 : Int) - (prepareToLearnBle "hci0" "c8" 0).session.created_at > 30
    ∧ (checkLearnedCommand (prepareToLearnBle "hci0" "c8" 0).session "ble" 31
        CaptureOutcome.noData).spawned = false
    ∧ (checkLearnedCommand (prepareToLearnBle "hci0" "c8" 0).session "ble" 31
        CaptureOutcome.noData).session.status = "timeout"
    ∧ ¬ (checkLearnedCommand (prepareToLearnBle "hci0" "c8" 0).session "ble" 31
        CaptureOutcome.noData).session.status = "learning" := by
  refine ⟨by decide, by decide, by decide, by decide, by decide⟩

/-- Claim C9, amended: for both endpoints, a request missing a required
field (`device_type` or `emitter` for prepare, `device_type` or
`session_id` for check, evaluated in that order with Python falsiness)
yields HTTP 400 with the JSON body
`\x7bstatus: "error", message: "Missing required field: <name>"\x7d`
naming the missing field - the text lives under the `message` key next to
`status: "error"`, not under an `error` key. -/
theorem C9_missing_field_responses (r : PrepareRequest) (c : CheckRequest) :
    (strLower (r.device_type.getD "") = "" →
      prepareViewValidate r = ViewOutcome.resp 400
        [("status", "error"), ("message", "Missing required field: device_type")])
    ∧ (¬ strLower (r.device_type.getD "") = "" → r.emitter.getD [] = [] →
      prepareViewValidate r = ViewOutcome.resp 400
        [("status", "error"), ("message", "Missing required field: emitter")])
    ∧ (strLower (c.device_type.getD "") = "" →
      checkViewValidate c = ViewOutcome.resp 400
        [("status", "error"), ("message", "Missing required field: device_type")])
    ∧ (¬ strLower (c.device_type.getD "") = "" → c.session_id.getD "" = "" →
      checkViewValidate c = ViewOutcome.resp 400
        [("status", "error"), ("message", "Missing required field: session_id")]) := by
  refine ⟨?_, ?_, ?_, ?_⟩
  · intro h1
    simp [prepareViewValidate, h1]
  · intro h1 h2
    simp [prepareViewValidate, h1, h2]
  · intro h1
    simp [checkViewValidate, h1]
  · intro h1 h2
    simp [checkViewValidate, h1, h2]

theorem C9_witness :
    prepareViewValidate ⟨none, some [("ip", "192.168.0.2")]⟩
      = ViewOutcome.resp 400
        [("status", "error"), ("message", "Missing required field: device_type")]
    ∧ prepareViewValidate ⟨some "ir", some []⟩
      = ViewOutcome.resp 400
        [("status", "error"), ("message", "Missing required field: emitter")]
    ∧ checkViewValidate ⟨some "ble", none⟩
      = ViewOutcome.resp 400
        [("status", "error"), ("message", "Missing required field: session_id")] :=
  ⟨(C9_missing_field_responses ⟨none, some [("ip", "192.168.0.2")]⟩
      ⟨some "ble", none⟩).1 (by decide),
    (C9_missing_field_responses ⟨some "ir", some []⟩ ⟨some "ble", none⟩).2.1
      (by decide) (by decide),
    (C9_missing_field_responses ⟨some "ir", some []⟩ ⟨some "ble", none⟩).2.2.2
      (by decide) (by decide)⟩

theorem C9_counterexample :
    prepareViewValidate ⟨none, some [("ip", "192.168.0.2")]⟩
      = ViewOutcome.resp 400
        [("status", "error"), ("message", "Missing required field: device_type")]
    ∧ ([("status", "error"),
        ("message", "Missing required field: device_type")] : List (String × String)).lookup
        "error" = none
    ∧ ¬ ([("status", "error"),
        ("message", "Missing required field: device_type")] : List (String × String))
        = [("error", "Missing required field: device_type")] := by
  refine ⟨by decide, by decide, by decide⟩

/-- Claim C10: `update_status` never clears stored data - with falsy
`command_data` and `error_message` arguments (`None` or the empty string)
the stored payload and error text are left unchanged while the status and
`updated_at` are overwritten, so a later forced transition such as the
30-unit expiry preserves a previously captured payload. -/
theorem C10_update_status_preserves (s : LearnSession) (st : String)
    (cd em : Option String) (t : Int)
    (hcd : truthy cd = false) (hem : truthy em = false) :
    (s.update_status st cd em t).command_data = s.command_data
    ∧ (s.update_status st cd em t).error_message = s.error_message
    ∧ (s.update_status st cd em t).status = st
    ∧ (s.update_status st cd em t).updated_at = t := by
  refine ⟨?_, ?_, rfl, rfl⟩ <;> simp [LearnSession.update_status, hcd, hem]

theorem C10_witness :
    (sessionCompleted.update_status "timeout" none (some "") 31).command_data
      = some "26004800"
    ∧ (sessionCompleted.update_status "timeout" none (some "") 31).error_message = none
    ∧ (sessionCompleted.update_status "timeout" none (some "") 31).status = "timeout" :=
  ⟨((C10_update_status_preserves sessionCompleted "timeout" none (some "") 31
      (by decide) (by decide)).1).trans (by decide),
    ((C10_update_status_preserves sessionCompleted "timeout" none (some "") 31
      (by decide) (by decide)).2.1).trans (by decide),
    (C10_update_status_preserves sessionCompleted "timeout" none (some "") 31
      (by decide) (by decide)).2.2.1⟩
